import Mathlib

/-!
Verification development for the smolvm microVM container runtime.

Each definition below is a shallow embedding of a function of the
repository, translated from the Rust source file named in its doc
comment.  External effects (the kernel's waitpid, the filesystem, the
guest storage engine) are modelled by explicit oracle records so that
the control flow of the embedded functions is exactly the source's.
Definitions whose source is not part of the repository snapshot are
marked `Modelled from the spec:` and follow the specification's words.
-/

/-! ## Process status decoding (src/src/process.rs)

The libc wait-status macros, as glibc defines them on Linux:
`WIFEXITED(s) = (s & 0x7f) == 0`, `WEXITSTATUS(s) = (s >> 8) & 0xff`,
`WTERMSIG(s) = s & 0x7f`, and `WIFSIGNALED(s)` holds exactly when the
low seven bits are neither 0 nor 0x7f. -/

/-- WIFEXITED: the low seven bits of the status word are zero. -/
def wIfExited (s : Nat) : Bool := s % 128 == 0

/-- WEXITSTATUS: the low byte of the exit status, bits 8..15 of the word. -/
def wExitStatus (s : Nat) : Nat := (s / 256) % 256

/-- WTERMSIG: the terminating signal number, the low seven bits. -/
def wTermSig (s : Nat) : Nat := s % 128

/-- WIFSIGNALED: low seven bits in 1..=126 (neither exited nor stopped). -/
def wIfSignaled (s : Nat) : Bool := s % 128 != 0 && s % 128 != 127

/-- Outcome of a non-blocking `waitpid(pid, &status, WNOHANG)` call:
the kernel returns 0 (still running), -1 (not our child / no such
process), or the pid together with a status word. -/
inductive WaitOutcome where
  | stillRunning
  | notOurChild
  | reaped (status : Nat)
deriving DecidableEq

/-- The exit-code decoding shared by `try_wait` and `wait` in
src/src/process.rs: low byte on normal exit, 128 plus the signal
number on signal death, -1 otherwise. -/
def decodeStatus (s : Nat) : Int :=
  if wIfExited s then (wExitStatus s : Int)
  else if wIfSignaled s then 128 + (wTermSig s : Int)
  else -1

/-- `try_wait` of src/src/process.rs (lines 26-47), as a function of the
kernel's waitpid outcome: `None` while running, `Some(-1)` when the pid
is not our child, and the decoded status when reaped. -/
def try_wait (o : WaitOutcome) : Option Int :=
  match o with
  | .stillRunning => none
  | .notOurChild => some (-1)
  | .reaped s => some (decodeStatus s)

/-- Outcome of a blocking `waitpid(pid, &status, 0)` call: the kernel
returns -1 or the pid with a status word. -/
inductive BlockingWaitOutcome where
  | notOurChild
  | reaped (status : Nat)
deriving DecidableEq

/-- `wait` of src/src/process.rs (lines 52-67). -/
def wait (o : BlockingWaitOutcome) : Int :=
  match o with
  | .notOurChild => -1
  | .reaped s => decodeStatus s

/-! ## Graceful stop (src/src/process.rs, stop_process) -/

/-- Observable actions of `stop_process`, in the order the source
performs them. -/
inductive StopEvent where
  | probeAlive            -- is_alive(pid)
  | sigterm               -- terminate(pid)
  | reap                  -- try_wait(pid)
  | sleep (ms : Nat)      -- thread::sleep
  | sigkill               -- kill(pid)
  | blockingReap          -- wait(pid)
deriving DecidableEq

/-- Oracle for the target process of a `stop_process` call: one field
per call site of the source, indexed by the polling iteration where the
site sits in the loop. -/
structure ProcBehavior where
  /-- result of the `is_alive(pid)` probe at entry -/
  initialAlive : Bool
  /-- whether `terminate(pid)` (SIGTERM) reports success -/
  termOk : Bool
  /-- `try_wait(pid)` at the top of polling iteration k (line 111) -/
  reapA : Nat → Option Int
  /-- `is_alive(pid)` during polling iteration k (line 115) -/
  aliveAt : Nat → Bool
  /-- `try_wait(pid)` after a dead liveness probe in iteration k (line 116) -/
  reapB : Nat → Option Int
  /-- `try_wait(pid)` in the already-dead / failed-SIGTERM prologue -/
  reapEarly : Option Int
  /-- `wait(pid)` after SIGKILL -/
  waitCode : Int

/-- Error kinds for the stop path.  `vm_creation` is the constructor the
source calls (`Error::vm_creation(...)`, src/src/process.rs line 133);
`timeoutKind` is the `Timeout` kind the specification's §4.A names, kept
here so the two can be compared. -/
inductive StopErr where
  | vm_creation (msg : String)
  | timeoutKind (msg : String)
deriving DecidableEq

/-- The polling loop of `stop_process` (lines 110-120): at most `fuel`
iterations (the loop guard `start.elapsed() < timeout` with one 100 ms
sleep per iteration admits iteration k exactly when 100·k ms < timeout),
starting at iteration index k.  Returns the reaped code if one was
obtained, together with the trace of actions. -/
def stopPoll (pb : ProcBehavior) (k : Nat) : Nat → Option Int × List StopEvent
  | 0 => (none, [])
  | fuel + 1 =>
    match pb.reapA k with
    | some code => (some code, [.reap])
    | none =>
      if pb.aliveAt k then
        let rest := stopPoll pb (k + 1) fuel
        (rest.1, .reap :: .probeAlive :: .sleep 100 :: rest.2)
      else
        (some ((pb.reapB k).getD 0), [.reap, .probeAlive, .reap])

/-- Number of polling iterations the loop guard admits for a timeout of
`timeout_ms` milliseconds: the k with 100·k < timeout_ms. -/
def stopIterations (timeout_ms : Nat) : Nat := (timeout_ms + 99) / 100

/-- `stop_process(pid, timeout, force)` of src/src/process.rs
(lines 90-138): SIGTERM, poll at 100 ms, then SIGKILL-and-reap (force)
or an `Error::vm_creation` timeout failure (no force).  Returns the
result together with the trace of actions. -/
def stop_process (pb : ProcBehavior) (pid : Int) (timeout_ms : Nat) (force : Bool) :
    Except StopErr Int × List StopEvent :=
  if pb.initialAlive = false then
    (Except.ok (pb.reapEarly.getD 0), [.probeAlive, .reap])
  else if pb.termOk = false then
    (Except.ok (pb.reapEarly.getD 0), [.probeAlive, .sigterm, .reap])
  else
    let polled := stopPoll pb 0 (stopIterations timeout_ms)
    match polled.1 with
    | some code => (Except.ok code, .probeAlive :: .sigterm :: polled.2)
    | none =>
      if force then
        (Except.ok pb.waitCode,
          .probeAlive :: .sigterm :: polled.2 ++ [.sigkill, .sleep 500, .blockingReap])
      else
        (Except.error (.vm_creation
            ("timeout waiting for process " ++ toString pid ++ " to stop")),
          .probeAlive :: .sigterm :: polled.2)

/-- A process that stays alive and unreaped through every poll: the
worst case for the stop path. -/
def pbNeverDies : ProcBehavior :=
  { initialAlive := true
    termOk := true
    reapA := fun _ => none
    aliveAt := fun _ => true
    reapB := fun _ => none
    reapEarly := none
    waitCode := 137 }

/-! ## Wire framing (src/crates/smolvm-agent/src/main.rs,
src/src/agent/client.rs) -/

/-- The specification's default frame-size ceiling: 64 MiB. -/
def FRAME_CEILING : Nat := 64 * 1024 * 1024

/-- `u32::from_be_bytes` on the four header bytes. -/
def u32_from_be (b0 b1 b2 b3 : Nat) : Nat :=
  (b0 % 256) * 16777216 + (b1 % 256) * 65536 + (b2 % 256) * 256 + b3 % 256

/-- What a receiver does once it has read a frame's 4-byte length
header.  `rejectTooLarge` is the behaviour §4.B of the specification
prescribes for a declared length over the ceiling (a FrameTooLarge
error, no allocation, payload unread); `readPayload cap len` is
growing the read buffer to `cap` bytes and reading `len` payload
bytes. -/
inductive FrameAction where
  | rejectTooLarge
  | readPayload (bufCapacity : Nat) (readLen : Nat)
deriving DecidableEq

/-- The agent's header handling, `handle_connection` lines 82-88 of
src/crates/smolvm-agent/src/main.rs: decode the big-endian length,
resize the reusable buffer when the length exceeds its capacity, read
that many payload bytes.  There is no ceiling check. -/
def agentFrameAction (bufLen : Nat) (b0 b1 b2 b3 : Nat) : FrameAction :=
  let len := u32_from_be b0 b1 b2 b3
  .readPayload (if len > bufLen then len else bufLen) len

/-- The host client's header handling, `AgentClient::read_response`
lines 62-68 of src/src/agent/client.rs: decode the length and allocate
a fresh buffer of exactly that size.  There is no ceiling check. -/
def clientFrameAction (b0 b1 b2 b3 : Nat) : FrameAction :=
  let len := u32_from_be b0 b1 b2 b3
  .readPayload len len

/-! ## Control protocol and the agent's connection loop
(src/crates/smolvm-agent/src/main.rs) -/

/-- Result of a completed guest command run
(`storage::run_command`). -/
structure RunResult where
  exit_code : Int
  stdout : String
  stderr : String
deriving DecidableEq

/-- The JSON data values the agent attaches to `Ok` responses.
`infoValue` stands for `serde_json::to_value` of a protocol data type
(ImageInfo, StorageStatus, a list of ImageInfo); modelled from the
spec: none of those types has a "shutdown" field (§4.C), so only
`shutdownValue` — the source's `json!(..shutdown: true..)` — answers
the connection loop's shutdown lookup. -/
inductive JsonData where
  | infoValue (tag : String)
  | gcValue (freedBytes : Nat) (dryRun : Bool)
  | shutdownValue
deriving DecidableEq

/-- `data.get("shutdown").and_then(as_bool) == Some(true)`
(src/crates/smolvm-agent/src/main.rs line 113). -/
def JsonData.shutdownFlag : JsonData → Bool
  | .shutdownValue => true
  | _ => false

/-- The tagged-union request type of the control protocol
(dispatched in `handle_request`). -/
inductive AgentRequest where
  | ping
  | pull (image : String) (platform : Option String)
  | query (image : String)
  | listImages
  | garbageCollect (dryRun : Bool)
  | prepareOverlay (image : String) (workloadId : String)
  | cleanupOverlay (workloadId : String)
  | formatStorage
  | storageStatus
  | shutdown
  | run (image : String) (command : List String) (env : List (String × String))
      (workdir : Option String) (mounts : List (String × String × Bool))
deriving DecidableEq

/-- The response union: Ok, Pong, Completed, Error (message, code). -/
inductive AgentResponse where
  | ok (data : Option JsonData)
  | pong (version : Nat)
  | completed (exit_code : Int) (stdout : String) (stderr : String)
  | error (message : String) (code : Option String)
deriving DecidableEq

/-- Modelled from the spec: the protocol version constant exchanged in
Pong (§6, scenario S1 shows version 1); the constant lives in the
smolvm-protocol crate, which is not part of the snapshot. -/
def PROTOCOL_VERSION : Nat := 1

/-- Oracle for the agent's guest storage engine (the `storage` module
of the agent crate, not part of the snapshot): one field per
`storage::` function `handle_request` calls, with the `Result` shapes
of the call sites in src/crates/smolvm-agent/src/main.rs. -/
structure StorageOps where
  pull_image : String → Option String → Except String JsonData
  query_image : String → Except String (Option JsonData)
  list_images : Unit → Except String JsonData
  garbage_collect : Bool → Except String Nat
  prepare_overlay : String → String → Except String JsonData
  cleanup_overlay : String → Except String Unit
  format : Unit → Except String Unit
  status : Unit → Except String JsonData
  run_command : String → List String → List (String × String) → Option String →
      List (String × String × Bool) → Except String RunResult

/-- `handle_run` (lines 165-185): Completed on success, RUN_FAILED on
error. -/
def handle_run (ops : StorageOps) (image : String) (command : List String)
    (env : List (String × String)) (workdir : Option String)
    (mounts : List (String × String × Bool)) : AgentResponse :=
  match ops.run_command image command env workdir mounts with
  | .ok r => .completed r.exit_code r.stdout r.stderr
  | .error e => .error e (some "RUN_FAILED")

/-- `handle_pull` (lines 188-200). -/
def handle_pull (ops : StorageOps) (image : String) (platform : Option String) :
    AgentResponse :=
  match ops.pull_image image platform with
  | .ok info => .ok (some info)
  | .error e => .error e (some "PULL_FAILED")

/-- `handle_query` (lines 203-217). -/
def handle_query (ops : StorageOps) (image : String) : AgentResponse :=
  match ops.query_image image with
  | .ok (some info) => .ok (some info)
  | .ok none => .error ("image not found: " ++ image) (some "NOT_FOUND")
  | .error e => .error e (some "QUERY_FAILED")

/-- `handle_list_images` (lines 220-230). -/
def handle_list_images (ops : StorageOps) : AgentResponse :=
  match ops.list_images () with
  | .ok images => .ok (some images)
  | .error e => .error e (some "LIST_FAILED")

/-- `handle_gc` (lines 233-246). -/
def handle_gc (ops : StorageOps) (dryRun : Bool) : AgentResponse :=
  match ops.garbage_collect dryRun with
  | .ok freed => .ok (some (.gcValue freed dryRun))
  | .error e => .error e (some "GC_FAILED")

/-- `handle_prepare_overlay` (lines 249-261). -/
def handle_prepare_overlay (ops : StorageOps) (image workloadId : String) :
    AgentResponse :=
  match ops.prepare_overlay image workloadId with
  | .ok info => .ok (some info)
  | .error e => .error e (some "OVERLAY_FAILED")

/-- `handle_cleanup_overlay` (lines 264-274). -/
def handle_cleanup_overlay (ops : StorageOps) (workloadId : String) : AgentResponse :=
  match ops.cleanup_overlay workloadId with
  | .ok _ => .ok none
  | .error e => .error e (some "CLEANUP_FAILED")

/-- `handle_format_storage` (lines 277-287). -/
def handle_format_storage (ops : StorageOps) : AgentResponse :=
  match ops.format () with
  | .ok _ => .ok none
  | .error e => .error e (some "FORMAT_FAILED")

/-- `handle_storage_status` (lines 290-300). -/
def handle_storage_status (ops : StorageOps) : AgentResponse :=
  match ops.status () with
  | .ok st => .ok (some st)
  | .error e => .error e (some "STATUS_FAILED")

/-- `handle_request` (lines 123-162): the request dispatcher. -/
def handle_request (ops : StorageOps) : AgentRequest → AgentResponse
  | .ping => .pong PROTOCOL_VERSION
  | .pull image platform => handle_pull ops image platform
  | .query image => handle_query ops image
  | .listImages => handle_list_images ops
  | .garbageCollect dryRun => handle_gc ops dryRun
  | .prepareOverlay image workloadId => handle_prepare_overlay ops image workloadId
  | .cleanupOverlay workloadId => handle_cleanup_overlay ops workloadId
  | .formatStorage => handle_format_storage ops
  | .storageStatus => handle_storage_status ops
  | .shutdown => .ok (some .shutdownValue)
  | .run image command env workdir mounts => handle_run ops image command env workdir mounts

/-- A frame's payload, after `serde_json::from_slice`: a recognised
request, or a parse failure with its message. -/
inductive FramePayload where
  | request (r : AgentRequest)
  | malformed (err : String)
deriving DecidableEq

/-- One read step of the connection loop: a complete frame, end of
stream at the header read, or an I/O error. -/
inductive ConnEvent where
  | frame (p : FramePayload)
  | eofAtHeader
  | readErr
deriving DecidableEq

/-- How `handle_connection` left the connection: clean EOF, after
answering a Shutdown, out of modelled input, or with an I/O error
(the `Err` return). -/
inductive ConnEnd where
  | closedEof
  | closedShutdown
  | outOfInput
  | ioError
deriving DecidableEq

/-- The shutdown test of lines 110-117: an `Ok` response whose data
carries `shutdown: true`. -/
def isShutdownOk : AgentResponse → Bool
  | .ok (some d) => d.shutdownFlag
  | _ => false

/-- `handle_connection` (lines 67-120) over the stream of read events:
EOF returns cleanly; an I/O error propagates; a malformed frame is
answered with an INVALID_REQUEST error and the loop continues; a parsed
request is answered and, when the response carries the shutdown marker,
the handler returns. -/
def handle_connection (ops : StorageOps) : List ConnEvent → List AgentResponse × ConnEnd
  | [] => ([], .outOfInput)
  | .eofAtHeader :: _ => ([], .closedEof)
  | .readErr :: _ => ([], .ioError)
  | .frame (.malformed e) :: rest =>
    let out := handle_connection ops rest
    (.error ("invalid request: " ++ e) (some "INVALID_REQUEST") :: out.1, out.2)
  | .frame (.request r) :: rest =>
    let resp := handle_request ops r
    if isShutdownOk resp then ([resp], .closedShutdown)
    else
      let out := handle_connection ops rest
      (resp :: out.1, out.2)

/-- `run_server` (lines 46-64): an accept loop with no exit — every
incoming connection is handled, each by `handle_connection`; neither a
connection error nor a Shutdown breaks the loop. -/
def run_server (ops : StorageOps) (conns : List (List ConnEvent)) :
    List (List AgentResponse × ConnEnd) :=
  conns.map (handle_connection ops)

/-- A storage oracle whose every operation fails: one concrete
instantiation used by closed statements. -/
def failingOps : StorageOps :=
  { pull_image := fun _ _ => .error "unavailable"
    query_image := fun _ => .error "unavailable"
    list_images := fun _ => .error "unavailable"
    garbage_collect := fun _ => .error "unavailable"
    prepare_overlay := fun _ _ => .error "unavailable"
    cleanup_overlay := fun _ => .error "unavailable"
    format := fun _ => .error "unavailable"
    status := fun _ => .error "unavailable"
    run_command := fun _ _ _ _ _ => .error "unavailable" }

/-! ## Input validation (src/crates/smolvm-agent/src/oci.rs)

Rust strings are sequences of Unicode scalar values; `str::len` counts
UTF-8 bytes while `str::chars` iterates scalar values.  A string is
modelled as its `List Char` of scalar values, with its byte length
recovered from the UTF-8 size of each. -/

/-- UTF-8 encoded size of one scalar value (Rust `char::len_utf8`). -/
def charUtf8Len (c : Char) : Nat :=
  if c.val < 128 then 1 else if c.val < 2048 then 2 else if c.val < 65536 then 3 else 4

/-- `str::len`: the UTF-8 byte length. -/
def byteLen (s : List Char) : Nat := (s.map charUtf8Len).sum

/-- `str::contains("..")`: some adjacent pair of characters is ".." -/
def containsDotDot : List Char → Bool
  | [] => false
  | [_] => false
  | c1 :: c2 :: rest => (c1 == '.' && c2 == '.') || containsDotDot (c2 :: rest)

/-- The `forbidden_chars` array of `validate_image_reference`
(oci.rs line 324), in source order. -/
def forbiddenImageChars : List Char :=
  ['$', Char.ofNat 96, '|', ';', '&', '>', '<', '\n', '\r', Char.ofNat 0]

/-- The `valid_chars` closure of `validate_image_reference`
(oci.rs lines 342-350). -/
def imageValidChar (c : Char) : Bool :=
  c.isAlphanum || c == '.' || c == '-' || c == '_' || c == '/' || c == ':' || c == '@'

/-- `MAX_IMAGE_REF_LENGTH` (oci.rs line 287). -/
def MAX_IMAGE_REF_LENGTH : Nat := 512

/-- `validate_image_reference` (oci.rs lines 309-375), check for check
in source order.  Error messages that the source builds with `format!`
are abbreviated to their static part; acceptance is unchanged. -/
def validate_image_reference (image : List Char) : Except String Unit :=
  if image.isEmpty then .error "image reference cannot be empty"
  else if byteLen image > MAX_IMAGE_REF_LENGTH then .error "image reference too long"
  else if image.any (fun c => forbiddenImageChars.contains c) then
    .error "image reference contains forbidden character"
  else if containsDotDot image && image.any (fun c => c == '/') then
    .error "image reference contains suspicious path traversal"
  else if !image.all imageValidChar then
    .error "image reference contains invalid characters"
  else
    match image.head? with
    | none => .error "image reference is empty"
    | some first =>
      match image.getLast? with
      | none => .error "image reference is empty"
      | some last =>
        if !first.isAlphanum then
          .error "image reference must start with alphanumeric character"
        else if !last.isAlphanum then
          .error "image reference must end with alphanumeric character"
        else .ok ()

/-- The per-pair body of the `validate_env_vars` loop
(oci.rs lines 390-427), check for check in source order.  The
`first_char` unwrap is safe in the source because emptiness was
already rejected; `headD` mirrors that. -/
def validate_env_pair (k v : List Char) : Except String Unit :=
  if k.isEmpty then .error "environment variable key cannot be empty"
  else if byteLen k > 256 then .error "environment variable key exceeds character limit"
  else
    let first := k.headD (Char.ofNat 0)
    if !(first.isAlpha || first == '_') then
      .error "environment variable key must start with a letter or underscore"
    else if !k.all (fun c => c.isAlphanum || c == '_') then
      .error "environment variable key contains invalid characters"
    else if byteLen v > 32 * 1024 then
      .error "environment variable value exceeds byte limit"
    else .ok ()

/-- `validate_env_vars` (oci.rs lines 386-431): every pair in order,
first failure wins. -/
def validate_env_vars : List (List Char × List Char) → Except String Unit
  | [] => .ok ()
  | (k, v) :: rest =>
    match validate_env_pair k v with
    | .ok _ => validate_env_vars rest
    | .error e => .error e

/-- Whether an `Except` carries a success. -/
def exceptIsOk : Except String Unit → Bool
  | .ok _ => true
  | .error _ => false

/-- The claim's character set for image references,
[A-Za-z0-9._/:@-], written from the specification §4.C. -/
def specImageCharset (c : Char) : Bool :=
  c.isAlphanum || c == '.' || c == '_' || c == '/' || c == ':' || c == '@' || c == '-'

/-- The claim's shell metacharacters, written from the specification
§4.C in its order. -/
def specShellMeta : List Char :=
  ['$', Char.ofNat 96, '|', ';', '&', '<', '>', '\n', '\r', Char.ofNat 0]

/-- The specification's acceptance predicate for an image reference:
1..=512 bytes over the charset, alphanumeric first and last character,
no shell metacharacter, no ".." together with "/". -/
def imageRefAcceptedSpec (image : List Char) : Bool :=
  decide (1 ≤ byteLen image) && decide (byteLen image ≤ 512) &&
  image.all specImageCharset &&
  (match image.head? with | some c => c.isAlphanum | none => false) &&
  (match image.getLast? with | some c => c.isAlphanum | none => false) &&
  image.all (fun c => !specShellMeta.contains c) &&
  !(containsDotDot image && image.any (fun c => c == '/'))

/-- The specification's regex `[A-Za-z_][A-Za-z0-9_]*` for an env key. -/
def envKeyRegexSpec : List Char → Bool
  | [] => false
  | c :: rest => (c.isAlpha || c == '_') && rest.all (fun d => d.isAlphanum || d == '_')

/-- The specification's acceptance predicate for one env pair: key of
1..=256 bytes matching the regex, value of at most 32 KiB. -/
def envPairAcceptedSpec (p : List Char × List Char) : Bool :=
  decide (1 ≤ byteLen p.1) && decide (byteLen p.1 ≤ 256) &&
  envKeyRegexSpec p.1 && decide (byteLen p.2 ≤ 32 * 1024)

/-! ## OCI bundle generation (src/crates/smolvm-agent/src/oci.rs) -/

/-- `OciUser`. -/
structure OciUser where
  uid : Nat
  gid : Nat
  additional_gids : List Nat
deriving DecidableEq

/-- `OciCapabilities`. -/
structure OciCapabilities where
  bounding : List String
  effective : List String
  inheritable : List String
  permitted : List String
  ambient : List String
deriving DecidableEq

/-- `OciRlimit`. -/
structure OciRlimit where
  rlimit_type : String
  hard : Nat
  soft : Nat
deriving DecidableEq

/-- `OciProcess`. -/
structure OciProcess where
  terminal : Bool
  user : OciUser
  args : List String
  env : List String
  cwd : String
  capabilities : Option OciCapabilities
  rlimits : Option (List OciRlimit)
  no_new_privileges : Bool
deriving DecidableEq

/-- `OciNamespace`. -/
structure OciNamespace where
  ns_type : String
  path : Option String
deriving DecidableEq

/-- `OciDevice`. -/
structure OciDevice where
  device_type : String
  path : String
  major : Nat
  minor : Nat
  file_mode : Option Nat
  uid : Option Nat
  gid : Option Nat
deriving DecidableEq

/-- `OciMount`. -/
structure OciMount where
  destination : String
  mount_type : Option String
  source : String
  options : List String
deriving DecidableEq

/-- `OciLinux`. -/
structure OciLinux where
  namespaces : List OciNamespace
  devices : List OciDevice
  masked_paths : List String
  readonly_paths : List String
deriving DecidableEq

/-- `OciRoot`. -/
structure OciRoot where
  path : String
  readonly : Bool
deriving DecidableEq

/-- `OciSpec` (the fields of the generated config.json). -/
structure OciSpec where
  oci_version : String
  root : OciRoot
  process : OciProcess
  linux : OciLinux
  mounts : List OciMount
  hostname : Option String
deriving DecidableEq

/-- `default_capabilities` (oci.rs lines 467-484). -/
def default_capabilities : List String :=
  ["CAP_CHOWN", "CAP_DAC_OVERRIDE", "CAP_FSETID", "CAP_FOWNER", "CAP_MKNOD",
   "CAP_NET_RAW", "CAP_SETGID", "CAP_SETUID", "CAP_SETFCAP", "CAP_SETPCAP",
   "CAP_NET_BIND_SERVICE", "CAP_SYS_CHROOT", "CAP_KILL", "CAP_AUDIT_WRITE"]

/-- `default_devices` (oci.rs lines 488-551). -/
def default_devices : List OciDevice :=
  [{ device_type := "c", path := "/dev/null", major := 1, minor := 3,
     file_mode := some 0o666, uid := some 0, gid := some 0 },
   { device_type := "c", path := "/dev/zero", major := 1, minor := 5,
     file_mode := some 0o666, uid := some 0, gid := some 0 },
   { device_type := "c", path := "/dev/full", major := 1, minor := 7,
     file_mode := some 0o666, uid := some 0, gid := some 0 },
   { device_type := "c", path := "/dev/random", major := 1, minor := 8,
     file_mode := some 0o666, uid := some 0, gid := some 0 },
   { device_type := "c", path := "/dev/urandom", major := 1, minor := 9,
     file_mode := some 0o666, uid := some 0, gid := some 0 },
   { device_type := "c", path := "/dev/tty", major := 5, minor := 0,
     file_mode := some 0o666, uid := some 0, gid := some 0 }]

/-- `default_mounts` (oci.rs lines 554-641). -/
def default_mounts : List OciMount :=
  [{ destination := "/proc", mount_type := some "proc", source := "proc",
     options := ["nosuid", "noexec", "nodev"] },
   { destination := "/dev", mount_type := some "tmpfs", source := "tmpfs",
     options := ["nosuid", "strictatime", "mode=755", "size=65536k"] },
   { destination := "/dev/pts", mount_type := some "devpts", source := "devpts",
     options := ["nosuid", "noexec", "newinstance", "ptmxmode=0666", "mode=0620"] },
   { destination := "/dev/shm", mount_type := some "tmpfs", source := "shm",
     options := ["nosuid", "noexec", "nodev", "mode=1777", "size=65536k"] },
   { destination := "/dev/mqueue", mount_type := some "mqueue", source := "mqueue",
     options := ["nosuid", "noexec", "nodev"] },
   { destination := "/sys", mount_type := some "sysfs", source := "sysfs",
     options := ["nosuid", "noexec", "nodev", "ro"] },
   { destination := "/sys/fs/cgroup", mount_type := some "cgroup2", source := "cgroup",
     options := ["nosuid", "noexec", "nodev", "ro"] }]

/-- `OciSpec::new` (oci.rs lines 169-256). -/
def OciSpec.new (command : List String) (env : List (String × String))
    (workdir : String) (tty : Bool) : OciSpec :=
  let env_strings : List String :=
    ["PATH=/usr/local/sbin:/usr/local/bin:/usr/sbin:/usr/bin:/sbin:/bin",
     "HOME=/root",
     "TERM=xterm-256color"] ++ env.map (fun p => p.1 ++ "=" ++ p.2)
  let capabilities : OciCapabilities :=
    { bounding := default_capabilities
      effective := default_capabilities
      inheritable := []
      permitted := default_capabilities
      ambient := [] }
  { oci_version := "1.0.2"
    root := { path := "rootfs", readonly := false }
    process :=
      { terminal := tty
        user := { uid := 0, gid := 0, additional_gids := [] }
        args := command
        env := env_strings
        cwd := workdir
        capabilities := some capabilities
        rlimits := some [{ rlimit_type := "RLIMIT_NOFILE", hard := 1024, soft := 1024 }]
        no_new_privileges := false }
    linux :=
      { namespaces :=
          [{ ns_type := "pid", path := none },
           { ns_type := "mount", path := none },
           { ns_type := "ipc", path := none },
           { ns_type := "uts", path := none }]
        devices := default_devices
        masked_paths :=
          ["/proc/asound", "/proc/acpi", "/proc/kcore", "/proc/keys",
           "/proc/latency_stats", "/proc/timer_list", "/proc/timer_stats",
           "/proc/sched_debug", "/proc/scsi", "/sys/firmware"]
        readonly_paths :=
          ["/proc/bus", "/proc/fs", "/proc/irq", "/proc/sys", "/proc/sysrq-trigger"] }
    mounts := default_mounts
    hostname := some "container" }

/-! ## VM records and process identity (src/src/config.rs,
src/src/cli/run_packed.rs) -/

/-- The host's view of the process table: which pids are alive and the
kernel-reported start-time token of the process now holding each pid. -/
structure ProcTable where
  aliveAt : Int → Bool
  startTimeAt : Int → Option Nat

/-- `is_alive` (src/src/process.rs lines 19-21): the signal-0 probe. -/
def is_alive (w : ProcTable) (pid : Int) : Bool := w.aliveAt pid

/-- `RecordState` (src/src/config.rs). -/
inductive RecordState where
  | created
  | running
  | stopped
  | failed
deriving DecidableEq

/-- `VmRecord` (src/src/config.rs): note that the record stores no
start-time token — its only process identity datum is `pid`. -/
structure VmRecord where
  name : String
  created_at : String
  state : RecordState
  pid : Option Int
  cpus : Nat
  mem : Nat
  mounts : List (String × String × Bool)
  ports : List (Nat × Nat)

/-- `VmRecord::is_process_alive` (src/src/config.rs lines 260-267):
pid set and the signal-0 probe succeeds; no start-time check. -/
def VmRecord.is_process_alive (w : ProcTable) (r : VmRecord) : Bool :=
  match r.pid with
  | some pid => is_alive w pid
  | none => false

/-- Modelled from the spec: `is_our_process_strict(pid, token)` of the
process module (absent from the snapshot; §4.A: true only if the pid is
alive AND its current start time equals the recorded token; the caller
comment in src/src/cli/run_packed.rs lines 362-365 fixes the `None`
token case to false — signaling is skipped). -/
def is_our_process_strict (w : ProcTable) (pid : Int) (token : Option Nat) : Bool :=
  match token with
  | none => false
  | some t => is_alive w pid && w.startTimeAt pid == some t

/-- `ChildGuard` (src/src/cli/run_packed.rs lines 353-358). -/
structure ChildGuard where
  pid : Int
  start_time : Option Nat

/-- The actions `ChildGuard::drop` can take. -/
inductive GuardAction where
  | stopChild (pid : Int)
  | removeRuntimeDir
deriving DecidableEq

/-- `ChildGuard::drop` (src/src/cli/run_packed.rs lines 360-373): stop
the child only when `is_our_process_strict` verifies it, then remove
the runtime directory unconditionally. -/
def ChildGuard.drop (w : ProcTable) (g : ChildGuard) : List GuardAction :=
  (if is_our_process_strict w g.pid g.start_time then [.stopChild g.pid] else [])
    ++ [.removeRuntimeDir]

/-- A process table in which pid 5 is held by a live process whose
start-time token is 999. -/
def wReused : ProcTable :=
  { aliveAt := fun p => p == 5
    startTimeAt := fun p => if p == 5 then some 999 else none }

/-- A record pointing at pid 5. -/
def rPid5 : VmRecord :=
  { name := "vm0", created_at := "0", state := .running, pid := some 5,
    cpus := 1, mem := 512, mounts := [], ports := [] }

/-! ## Storage disk (src/src/storage.rs) -/

/-- The filesystem, abstracted to the byte length of each regular file
(directories are not modelled: `create_dir_all` touches no file). -/
structure Fs where
  files : String → Option Nat

/-- `create_sparse_disk` (src/src/storage.rs lines 68-82): create-new,
seek to size-1, write one zero byte — a file of exactly `size_bytes`
bytes appears at `path`. -/
def create_sparse_disk (fs : Fs) (path : String) (size_bytes : Nat) : Fs :=
  { files := fun q => if q = path then some size_bytes else fs.files q }

/-- `StorageDisk` (src/src/storage.rs lines 334-339). -/
structure StorageDisk where
  path : String
  size_bytes : Nat
deriving DecidableEq

/-- The error of the zero-size rejection (`Error::config`). -/
inductive StorageErr where
  | configErr (op : String) (msg : String)
deriving DecidableEq

/-- `StorageDisk::open_or_create_at` (src/src/storage.rs lines
368-399): reject size 0; when the file exists, open it and take
`size_bytes` from its current metadata length, touching nothing;
otherwise create a sparse file of `size_gb * 2^30` bytes. -/
def StorageDisk.open_or_create_at (fs : Fs) (path : String) (size_gb : Nat) :
    Except StorageErr StorageDisk × Fs :=
  if size_gb = 0 then
    (.error (.configErr "validate storage size" "disk size must be greater than 0 GB"), fs)
  else
    let size_bytes := size_gb * 1024 * 1024 * 1024
    match fs.files path with
    | some len => (.ok { path := path, size_bytes := len }, fs)
    | none => (.ok { path := path, size_bytes := size_bytes }, create_sparse_disk fs path size_bytes)

/-- A filesystem holding one 7-byte file at the storage path. -/
def fsExisting : Fs :=
  { files := fun p => if p = "/data/smolvm/storage.raw" then some 7 else none }

/-- A process table agreeing with `wReused` on liveness but reporting
no start times. -/
def wNoTimes : ProcTable :=
  { aliveAt := wReused.aliveAt, startTimeAt := fun _ => none }

/-! ## Theorems -/

/-- A signaled status word is not an exited one. -/
theorem wIfSignaled_not_exited (s : Nat) (h : wIfSignaled s = true) :
    wIfExited s = false := by
  simp only [wIfSignaled, Bool.and_eq_true, bne_iff_ne, ne_eq] at h
  simp only [wIfExited, beq_eq_false_iff_ne, ne_eq]
  exact h.1

/-- C7: `try_wait` distinguishes the four reap outcomes — no result
while the process runs, the low byte of the exit status on normal exit,
128 plus the signal number on signal death, and the distinct value -1
(shared by no exit or signal case) when the pid is not our child. -/
theorem try_wait_four_outcomes (se ss : Nat)
    (hex : wIfExited se = true) (hsg : wIfSignaled ss = true) :
    try_wait .stillRunning = none ∧
    try_wait (.reaped se) = some ((wExitStatus se : Int)) ∧
    try_wait (.reaped ss) = some (128 + (wTermSig ss : Int)) ∧
    try_wait .notOurChild = some (-1) ∧
    try_wait (.reaped se) ≠ try_wait .notOurChild ∧
    try_wait (.reaped ss) ≠ try_wait .notOurChild ∧
    try_wait .notOurChild ≠ try_wait .stillRunning := by
  have hne := wIfSignaled_not_exited ss hsg
  have h1 : try_wait (.reaped se) = some ((wExitStatus se : Int)) := by
    simp [try_wait, decodeStatus, hex]
  have h2 : try_wait (.reaped ss) = some (128 + (wTermSig ss : Int)) := by
    simp [try_wait, decodeStatus, hne, hsg]
  refine ⟨rfl, h1, h2, rfl, ?_, ?_, by simp [try_wait]⟩
  · rw [h1]; simp only [try_wait, ne_eq, Option.some.injEq]; omega
  · rw [h2]; simp only [try_wait, ne_eq, Option.some.injEq]; omega

/-- C7 witness: status word 256 is a normal exit with code 1; status
word 9 is death by signal 9 (128 + 9 = 137). -/
theorem try_wait_four_outcomes_witness :
    try_wait .stillRunning = none ∧
    try_wait (.reaped 256) = some ((wExitStatus 256 : Int)) ∧
    try_wait (.reaped 9) = some (128 + (wTermSig 9 : Int)) ∧
    try_wait .notOurChild = some (-1) ∧
    try_wait (.reaped 256) ≠ try_wait .notOurChild ∧
    try_wait (.reaped 9) ≠ try_wait .notOurChild ∧
    try_wait .notOurChild ≠ try_wait .stillRunning :=
  try_wait_four_outcomes 256 9 (by decide) (by decide)

/-- C1: neither receiver enforces the 64 MiB ceiling.  A header
declaring 2³² − 1 bytes exceeds the ceiling, yet the agent's loop
resizes its buffer to the declared size and proceeds to read the
payload, the host client allocates a fresh buffer of the declared
size, and no header value whatsoever makes either receiver reject a
frame before reading. -/
theorem frame_ceiling_not_enforced :
    u32_from_be 255 255 255 255 = 4294967295 ∧
    FRAME_CEILING = 67108864 ∧
    67108864 < 4294967295 ∧
    agentFrameAction 65536 255 255 255 255 = .readPayload 4294967295 4294967295 ∧
    clientFrameAction 255 255 255 255 = .readPayload 4294967295 4294967295 ∧
    (∀ bufLen b0 b1 b2 b3, agentFrameAction bufLen b0 b1 b2 b3 ≠ .rejectTooLarge) ∧
    (∀ b0 b1 b2 b3, clientFrameAction b0 b1 b2 b3 ≠ .rejectTooLarge) := by
  refine ⟨by norm_num [u32_from_be], rfl, by norm_num, by norm_num [agentFrameAction, u32_from_be],
    by norm_num [clientFrameAction, u32_from_be], ?_, ?_⟩
  · intro bufLen b0 b1 b2 b3
    simp [agentFrameAction]
  · intro b0 b1 b2 b3
    simp [clientFrameAction]

/-- C9: for every command, env list and workdir, `OciSpec::new` yields
uid = gid = 0, cwd equal to the caller's workdir, env of exactly the
PATH/HOME/TERM defaults followed by the caller's pairs in order,
no-new-privileges false, the single RLIMIT_NOFILE rlimit with
soft = hard = 1024, the fixed 14-capability allow-list in
bounding/effective/permitted with empty inheritable/ambient, and
exactly the namespaces pid, mount, ipc, uts. -/
theorem oci_spec_new_defaults (command : List String) (env : List (String × String))
    (workdir : String) (tty : Bool) :
    (OciSpec.new command env workdir tty).process.user.uid = 0 ∧
    (OciSpec.new command env workdir tty).process.user.gid = 0 ∧
    (OciSpec.new command env workdir tty).process.cwd = workdir ∧
    (OciSpec.new command env workdir tty).process.env =
      ["PATH=/usr/local/sbin:/usr/local/bin:/usr/sbin:/usr/bin:/sbin:/bin",
       "HOME=/root", "TERM=xterm-256color"] ++ env.map (fun p => p.1 ++ "=" ++ p.2) ∧
    (OciSpec.new command env workdir tty).process.no_new_privileges = false ∧
    (OciSpec.new command env workdir tty).process.rlimits =
      some [{ rlimit_type := "RLIMIT_NOFILE", hard := 1024, soft := 1024 }] ∧
    (OciSpec.new command env workdir tty).process.capabilities =
      some { bounding := default_capabilities, effective := default_capabilities,
             inheritable := [], permitted := default_capabilities, ambient := [] } ∧
    default_capabilities.length = 14 ∧
    (OciSpec.new command env workdir tty).linux.namespaces.map OciNamespace.ns_type
      = ["pid", "mount", "ipc", "uts"] :=
  ⟨rfl, rfl, rfl, rfl, rfl, rfl, rfl, rfl, rfl⟩

/-- C10: opening a pre-existing storage-disk file with any requested
size of at least 1 GiB succeeds with `size_bytes` equal to the file's
current length, and leaves the filesystem untouched — the requested
size is ignored. -/
theorem open_or_create_existing_preserves (fs : Fs) (path : String) (size_gb len : Nat)
    (hex : fs.files path = some len) (hsz : 1 ≤ size_gb) :
    (StorageDisk.open_or_create_at fs path size_gb).1
      = .ok { path := path, size_bytes := len } ∧
    (StorageDisk.open_or_create_at fs path size_gb).2 = fs := by
  have h0 : ¬ size_gb = 0 := by omega
  simp [StorageDisk.open_or_create_at, h0, hex]

/-- C10 witness: a 7-byte file opened with a 20 GiB request keeps its
7 bytes and its filesystem state. -/
theorem open_or_create_existing_preserves_witness :
    (StorageDisk.open_or_create_at fsExisting "/data/smolvm/storage.raw" 20).1
      = .ok { path := "/data/smolvm/storage.raw", size_bytes := 7 } ∧
    (StorageDisk.open_or_create_at fsExisting "/data/smolvm/storage.raw" 20).2 = fsExisting :=
  open_or_create_existing_preserves fsExisting "/data/smolvm/storage.raw" 20 7
    (by simp [fsExisting]) (by omega)

/-- Without a read I/O error in the event stream, `handle_connection`
never returns the I/O-error end state. -/
theorem no_ioError_without_readErr (ops : StorageOps) :
    ∀ evs : List ConnEvent, ConnEvent.readErr ∉ evs →
      (handle_connection ops evs).2 ≠ ConnEnd.ioError := by
  intro evs
  induction evs with
  | nil => intro _; simp [handle_connection]
  | cons e rest ih =>
    intro hno
    have hrest : ConnEvent.readErr ∉ rest := fun hmem => hno (List.mem_cons_of_mem _ hmem)
    cases e with
    | eofAtHeader => simp [handle_connection]
    | readErr => exact absurd (List.mem_cons_self _ _) hno
    | frame p =>
      cases p with
      | malformed m => simpa [handle_connection] using ih hrest
      | request r =>
        by_cases hs : isShutdownOk (handle_request ops r)
        · simp [handle_connection, hs]
        · simpa [handle_connection, hs] using ih hrest

/-- C3: a frame whose payload does not parse is answered with an
INVALID_REQUEST error; the connection stays open — the remaining events
are served exactly as they would have been, with the same end state; a
read I/O error ends the session in the error state, and no session ends
in the error state without one. -/
theorem invalid_frame_keeps_connection (ops : StorageOps) (e : String)
    (rest evs : List ConnEvent) (hno : ConnEvent.readErr ∉ evs) :
    (handle_connection ops (.frame (.malformed e) :: rest)).1
      = .error ("invalid request: " ++ e) (some "INVALID_REQUEST")
          :: (handle_connection ops rest).1 ∧
    (handle_connection ops (.frame (.malformed e) :: rest)).2
      = (handle_connection ops rest).2 ∧
    (handle_connection ops (ConnEvent.readErr :: rest)).2 = ConnEnd.ioError ∧
    (handle_connection ops evs).2 ≠ ConnEnd.ioError :=
  ⟨rfl, rfl, rfl, no_ioError_without_readErr ops evs hno⟩

/-- C3 witness: a malformed frame followed by EOF on a concrete
connection, and an error-free stream that ends without the I/O-error
state. -/
theorem invalid_frame_keeps_connection_witness :
    (handle_connection failingOps (.frame (.malformed "x") :: [ConnEvent.eofAtHeader])).1
      = .error ("invalid request: " ++ "x") (some "INVALID_REQUEST")
          :: (handle_connection failingOps [ConnEvent.eofAtHeader]).1 ∧
    (handle_connection failingOps (.frame (.malformed "x") :: [ConnEvent.eofAtHeader])).2
      = (handle_connection failingOps [ConnEvent.eofAtHeader]).2 ∧
    (handle_connection failingOps (ConnEvent.readErr :: [ConnEvent.eofAtHeader])).2
      = ConnEnd.ioError ∧
    (handle_connection failingOps
        [ConnEvent.frame (.request .ping), ConnEvent.eofAtHeader]).2 ≠ ConnEnd.ioError :=
  invalid_frame_keeps_connection failingOps "x" [ConnEvent.eofAtHeader]
    [ConnEvent.frame (.request .ping), ConnEvent.eofAtHeader] (by decide)

/-- C4 counterexample: a Run whose command vector is empty is not
answered with INVALID_REQUEST — with the storage engine failing the
run, the reply carries the code RUN_FAILED. -/
theorem run_empty_command_invalid_request_cex :
    handle_request failingOps (.run "alpine" [] [] none [])
      = .error "unavailable" (some "RUN_FAILED") ∧
    ¬ ∃ msg, handle_request failingOps (.run "alpine" [] [] none [])
        = .error msg (some "INVALID_REQUEST") := by
  refine ⟨rfl, ?_⟩
  rintro ⟨msg, h⟩
  rw [show handle_request failingOps (.run "alpine" [] [] none [])
      = .error "unavailable" (some "RUN_FAILED") from rfl] at h
  injection h with h1 h2
  injection h2 with h3
  exact absurd h3 (by decide)

/-- C4 amended: whatever the guest storage engine does, a Run request
with an empty command vector is answered either Completed or with the
code RUN_FAILED, never with INVALID_REQUEST; `OciSpec::new` itself
copies the empty argument vector into the bundle unchecked. -/
theorem run_empty_command_never_invalid_request (ops : StorageOps) (image : String)
    (env : List (String × String)) (workdir : Option String)
    (mounts : List (String × String × Bool)) (envKV : List (String × String))
    (wd : String) (tty : Bool) :
    ((∃ msg, handle_request ops (.run image [] env workdir mounts)
        = .error msg (some "RUN_FAILED")) ∨
     (∃ c o e, handle_request ops (.run image [] env workdir mounts)
        = .completed c o e)) ∧
    (∀ msg, handle_request ops (.run image [] env workdir mounts)
        ≠ .error msg (some "INVALID_REQUEST")) ∧
    (OciSpec.new [] envKV wd tty).process.args = [] := by
  refine ⟨?_, ?_, rfl⟩
  · simp only [handle_request, handle_run]
    cases ops.run_command image [] env workdir mounts with
    | ok r => exact Or.inr ⟨r.exit_code, r.stdout, r.stderr, rfl⟩
    | error e => exact Or.inl ⟨e, rfl⟩
  · intro msg
    simp only [handle_request, handle_run]
    cases ops.run_command image [] env workdir mounts with
    | ok r => simp
    | error e =>
      intro hcontra
      injection hcontra with h1 h2
      injection h2 with h3
      exact absurd h3 (by decide)

/-- C5 counterexample: after a Shutdown is received and answered Ok on
the first connection, the accept loop is not exited — a second incoming
connection is still served (its Ping is answered). -/
theorem shutdown_accept_loop_continues_cex :
    run_server failingOps
        [[.frame (.request .shutdown)], [.frame (.request .ping), .eofAtHeader]]
      = [([.ok (some .shutdownValue)], .closedShutdown),
         ([.pong PROTOCOL_VERSION], .closedEof)] := rfl

/-- C5 amended: on a connection carrying a Shutdown, the agent emits
the Ok response and only then finishes handling that connection
(subsequent frames of it are not read); the accept loop itself never
exits — every connection before and after is served unchanged. -/
theorem shutdown_ok_sent_then_connection_done (ops : StorageOps) (rest : List ConnEvent)
    (pre post : List (List ConnEvent)) :
    handle_connection ops (.frame (.request .shutdown) :: rest)
      = ([.ok (some .shutdownValue)], .closedShutdown) ∧
    run_server ops (pre ++ (.frame (.request .shutdown) :: rest) :: post)
      = run_server ops pre
        ++ ([.ok (some .shutdownValue)], .closedShutdown) :: run_server ops post := by
  have h1 : handle_connection ops (.frame (.request .shutdown) :: rest)
      = ([.ok (some .shutdownValue)], .closedShutdown) := rfl
  exact ⟨h1, by simp [run_server, h1]⟩

/-- C2 counterexample: a record pointing at pid 5 is reported alive by
`VmRecord::is_process_alive` although the process now at pid 5 carries
start-time token 999, not the fork-time token 111 — the liveness
predicate checks the pid alone, not (pid, start_time). -/
theorem liveness_pid_only_cex :
    VmRecord.is_process_alive wReused rPid5 = true ∧
    rPid5.pid = some 5 ∧
    wReused.startTimeAt 5 = some 999 ∧
    is_our_process_strict wReused 5 (some 111) = false :=
  ⟨rfl, rfl, rfl, rfl⟩

/-- C2 amended: `VmRecord::is_process_alive` needs the pid set and
probes liveness of the pid alone (its value is unchanged by any
reassignment of start times), while the asynchronous termination path
`ChildGuard::drop` signals the child only when
`is_our_process_strict(pid, start_time)` verifies it — which requires
the pid to be alive with exactly the recorded token — and never
signals when no token was captured. -/
theorem liveness_probe_and_guard_identity (w w2 : ProcTable) (r : VmRecord)
    (g : ChildGuard) (p : Int) (t : Nat)
    (halive : VmRecord.is_process_alive w r = true)
    (hsig : GuardAction.stopChild g.pid ∈ ChildGuard.drop w g)
    (hstrict : is_our_process_strict w p (some t) = true)
    (hsame : w.aliveAt = w2.aliveAt) :
    r.pid.isSome = true ∧
    VmRecord.is_process_alive w2 r = VmRecord.is_process_alive w r ∧
    is_our_process_strict w g.pid g.start_time = true ∧
    ChildGuard.drop w { pid := g.pid, start_time := none } = [GuardAction.removeRuntimeDir] ∧
    w.aliveAt p = true ∧ w.startTimeAt p = some t := by
  refine ⟨?_, ?_, ?_, ?_, ?_⟩
  · cases hr : r.pid with
    | none => rw [VmRecord.is_process_alive, hr] at halive; exact absurd halive (by simp)
    | some q => simp [hr]
  · cases hr : r.pid with
    | none => simp [VmRecord.is_process_alive, hr]
    | some q => simp [VmRecord.is_process_alive, hr, is_alive, hsame]
  · by_cases hs : is_our_process_strict w g.pid g.start_time = true
    · exact hs
    · rw [ChildGuard.drop, if_neg hs] at hsig
      simp at hsig
  · simp [ChildGuard.drop, is_our_process_strict]
  · rw [is_our_process_strict] at hstrict
    simp only [is_alive, Bool.and_eq_true, beq_iff_eq] at hstrict
    exact hstrict

/-- C2 amended witness: the concrete table `wReused` with a guard that
recorded token 999 for pid 5. -/
theorem liveness_probe_and_guard_identity_witness :
    rPid5.pid.isSome = true ∧
    VmRecord.is_process_alive wNoTimes rPid5 = VmRecord.is_process_alive wReused rPid5 ∧
    is_our_process_strict wReused (ChildGuard.mk 5 (some 999)).pid
      (ChildGuard.mk 5 (some 999)).start_time = true ∧
    ChildGuard.drop wReused
        { pid := (ChildGuard.mk 5 (some 999)).pid, start_time := none }
      = [GuardAction.removeRuntimeDir] ∧
    wReused.aliveAt 5 = true ∧ wReused.startTimeAt 5 = some 999 :=
  liveness_probe_and_guard_identity wReused wNoTimes rPid5 (ChildGuard.mk 5 (some 999)) 5 999
    rfl (by decide) rfl rfl

/-- While the process stays alive and unreaped, each admitted polling
iteration contributes one reap probe, one liveness probe and one 100 ms
sleep, and the loop obtains no exit code. -/
theorem stopPoll_all_alive (pb : ProcBehavior) (hA : ∀ k, pb.reapA k = none)
    (hL : ∀ k, pb.aliveAt k = true) :
    ∀ fuel k, stopPoll pb k fuel
      = (none, (List.replicate fuel [StopEvent.reap, .probeAlive, .sleep 100]).flatten) := by
  intro fuel
  induction fuel with
  | zero => intro k; rfl
  | succ n ih =>
    intro k
    simp [stopPoll, hA k, hL k, ih (k + 1), List.replicate_succ]

/-- C6 counterexample: with a process that survives SIGTERM past the
timeout and `force = false`, `stop_process` fails with the
`Error::vm_creation` constructor — there is no error of a Timeout
kind. -/
theorem stop_timeout_error_kind_cex :
    (stop_process pbNeverDies 42 300 false).1
      = Except.error (StopErr.vm_creation "timeout waiting for process 42 to stop") ∧
    ¬ ∃ msg, (stop_process pbNeverDies 42 300 false).1
        = Except.error (StopErr.timeoutKind msg) := by
  have hval : (stop_process pbNeverDies 42 300 false).1
      = Except.error (StopErr.vm_creation "timeout waiting for process 42 to stop") := rfl
  refine ⟨hval, ?_⟩
  rintro ⟨msg, h⟩
  rw [hval] at h
  injection h with h1
  exact StopErr.noConfusion h1

/-- C6 amended: `stop_process` first probes, then sends SIGTERM, then
polls in 100 ms steps for every iteration the timeout admits; when the
process is still alive at the end it either (force) sends SIGKILL,
sleeps 500 ms and returns the blocking-reap code, or (no force) fails —
with a `vm_creation`-constructed error whose message reports the
timeout, not with a Timeout error kind. -/
theorem stop_process_trace (pb : ProcBehavior) (pid : Int) (timeout_ms : Nat) (force : Bool)
    (halive : pb.initialAlive = true) (hterm : pb.termOk = true)
    (hA : ∀ k, pb.reapA k = none) (hL : ∀ k, pb.aliveAt k = true) :
    (force = true →
      stop_process pb pid timeout_ms force
        = (Except.ok pb.waitCode,
            .probeAlive :: .sigterm ::
              (List.replicate (stopIterations timeout_ms)
                  [StopEvent.reap, .probeAlive, .sleep 100]).flatten
              ++ [.sigkill, .sleep 500, .blockingReap])) ∧
    (force = false →
      stop_process pb pid timeout_ms force
        = (Except.error (StopErr.vm_creation
              ("timeout waiting for process " ++ toString pid ++ " to stop")),
            .probeAlive :: .sigterm ::
              (List.replicate (stopIterations timeout_ms)
                  [StopEvent.reap, .probeAlive, .sleep 100]).flatten)) := by
  have hpoll := stopPoll_all_alive pb hA hL (stopIterations timeout_ms) 0
  constructor <;> intro hf <;>
    simp [stop_process, halive, hterm, hpoll, hf]

/-- C6 amended witness: the never-dying process, pid 42, a 250 ms
timeout (three admitted polls), in both force modes. -/
theorem stop_process_trace_witness :
    (true = true →
      stop_process pbNeverDies 42 250 true
        = (Except.ok pbNeverDies.waitCode,
            .probeAlive :: .sigterm ::
              (List.replicate (stopIterations 250)
                  [StopEvent.reap, .probeAlive, .sleep 100]).flatten
              ++ [.sigkill, .sleep 500, .blockingReap])) ∧
    (true = false →
      stop_process pbNeverDies 42 250 true
        = (Except.error (StopErr.vm_creation
              ("timeout waiting for process " ++ toString (42 : Int) ++ " to stop")),
            .probeAlive :: .sigterm ::
              (List.replicate (stopIterations 250)
                  [StopEvent.reap, .probeAlive, .sleep 100]).flatten)) :=
  stop_process_trace pbNeverDies 42 250 true rfl rfl (fun _ => rfl) (fun _ => rfl)

theorem charUtf8Len_pos (c : Char) : 1 ≤ charUtf8Len c := by
  unfold charUtf8Len; split_ifs <;> omega

theorem byteLen_cons (c : Char) (t : List Char) :
    byteLen (c :: t) = charUtf8Len c + byteLen t := rfl

theorem byteLen_pos (c : Char) (t : List Char) : 1 ≤ byteLen (c :: t) := by
  have := charUtf8Len_pos c
  rw [byteLen_cons]; omega

theorem forbidden_eq_meta (c : Char) :
    forbiddenImageChars.contains c = specShellMeta.contains c := by
  rw [Bool.eq_iff_iff]
  simp [forbiddenImageChars, specShellMeta, List.elem_iff]
  tauto

theorem validChar_eq_spec (c : Char) : imageValidChar c = specImageCharset c := by
  rw [Bool.eq_iff_iff]
  simp [imageValidChar, specImageCharset]
  tauto

theorem validate_image_isOk (image : List Char) :
    exceptIsOk (validate_image_reference image) = imageRefAcceptedSpec image := by
  match himg : image with
  | [] => rfl
  | c :: rest =>
    rw [Bool.eq_iff_iff]
    have hne : (c :: rest) ≠ [] := by simp
    obtain ⟨last, hlast⟩ : ∃ x, (c :: rest).getLast? = some x := by
      cases h : (c :: rest).getLast? with
      | none => exact absurd (List.getLast?_eq_none_iff.mp h) hne
      | some x => exact ⟨x, rfl⟩
    unfold validate_image_reference imageRefAcceptedSpec
    rw [if_neg (by simp : ¬ ((c :: rest).isEmpty = true))]
    simp only [List.head?_cons, hlast, Bool.and_eq_true]
    constructor
    · intro hok
      by_cases h2 : byteLen (c :: rest) > MAX_IMAGE_REF_LENGTH
      · rw [if_pos h2] at hok; exact absurd hok (by simp [exceptIsOk])
      rw [if_neg h2] at hok
      by_cases h3 : (c :: rest).any (fun d => forbiddenImageChars.contains d) = true
      · rw [if_pos h3] at hok; exact absurd hok (by simp [exceptIsOk])
      rw [if_neg h3] at hok
      by_cases h4 : containsDotDot (c :: rest) = true ∧ ((c :: rest).any fun d => d == '/') = true
      · rw [if_pos h4] at hok; exact absurd hok (by simp [exceptIsOk])
      rw [if_neg h4] at hok
      by_cases h5 : (!(c :: rest).all imageValidChar) = true
      · rw [if_pos h5] at hok; exact absurd hok (by simp [exceptIsOk])
      rw [if_neg h5] at hok
      by_cases h6 : (!c.isAlphanum) = true
      · rw [if_pos h6] at hok; exact absurd hok (by simp [exceptIsOk])
      rw [if_neg h6] at hok
      by_cases h7 : (!last.isAlphanum) = true
      · rw [if_pos h7] at hok; exact absurd hok (by simp [exceptIsOk])
      have hall : (c :: rest).all imageValidChar = true := by
        simpa using h5
      refine ⟨⟨⟨⟨⟨⟨?_, ?_⟩, ?_⟩, ?_⟩, ?_⟩, ?_⟩, ?_⟩
      · exact decide_eq_true (byteLen_pos c rest)
      · exact decide_eq_true (by simpa [MAX_IMAGE_REF_LENGTH] using h2)
      · rw [List.all_eq_true] at hall ⊢
        intro d hd
        rw [← validChar_eq_spec]
        exact hall d hd
      · simpa using h6
      · simpa using h7
      · rw [List.all_eq_true]
        intro d hd
        have hno : ¬ (forbiddenImageChars.contains d = true) := fun hcon =>
          h3 (List.any_eq_true.mpr ⟨d, hd, hcon⟩)
        rw [← forbidden_eq_meta]
        simp only [Bool.not_eq_true']
        exact Bool.eq_false_iff.mpr hno
      · cases hX : containsDotDot (c :: rest) with
        | false => simp [hX]
        | true =>
          cases hY : (c :: rest).any fun d => d == '/' with
          | false => simp [hX, hY]
          | true => exact absurd ⟨hX, hY⟩ h4
    · rintro ⟨⟨⟨⟨⟨⟨hlen1, hlen2⟩, hcharset⟩, hfirst⟩, hlast2⟩, hmeta⟩, hdd⟩
      have h2 : ¬ byteLen (c :: rest) > MAX_IMAGE_REF_LENGTH := by
        simp only [MAX_IMAGE_REF_LENGTH]
        have := of_decide_eq_true hlen2
        omega
      have h3 : ¬ ((c :: rest).any (fun d => forbiddenImageChars.contains d) = true) := by
        rw [List.any_eq_true]
        rintro ⟨d, hd, hcon⟩
        rw [forbidden_eq_meta] at hcon
        rw [List.all_eq_true] at hmeta
        have := hmeta d hd
        rw [hcon] at this
        exact absurd this (by simp)
      have h4 : ¬ (containsDotDot (c :: rest) = true ∧ ((c :: rest).any fun d => d == '/') = true) := by
        rintro ⟨hX, hY⟩
        rw [hX, hY] at hdd
        exact absurd hdd (by simp)
      have h5 : ¬ ((!(c :: rest).all imageValidChar) = true) := by
        simp only [Bool.not_eq_true', Bool.not_eq_false]
        rw [List.all_eq_true] at hcharset ⊢
        intro d hd
        rw [validChar_eq_spec]
        exact hcharset d hd
      rw [if_neg h2, if_neg h3, if_neg h4, if_neg h5,
        if_neg (by simpa using hfirst), if_neg (by simpa using hlast2)]
      rfl

theorem validate_env_pair_isOk (k v : List Char) :
    exceptIsOk (validate_env_pair k v) = envPairAcceptedSpec (k, v) := by
  match hk : k with
  | [] => rfl
  | c :: rest =>
    rw [Bool.eq_iff_iff]
    unfold validate_env_pair envPairAcceptedSpec
    rw [if_neg (by simp : ¬ ((c :: rest).isEmpty = true))]
    simp only [List.headD_cons, envKeyRegexSpec, Bool.and_eq_true]
    constructor
    · intro hok
      by_cases h2 : byteLen (c :: rest) > 256
      · rw [if_pos h2] at hok; exact absurd hok (by simp [exceptIsOk])
      rw [if_neg h2] at hok
      by_cases h3 : (!(c.isAlpha || c == '_')) = true
      · rw [if_pos h3] at hok; exact absurd hok (by simp [exceptIsOk])
      rw [if_neg h3] at hok
      by_cases h4 : (!(c :: rest).all fun d => d.isAlphanum || d == '_') = true
      · rw [if_pos h4] at hok; exact absurd hok (by simp [exceptIsOk])
      rw [if_neg h4] at hok
      by_cases h5 : byteLen v > 32 * 1024
      · rw [if_pos h5] at hok; exact absurd hok (by simp [exceptIsOk])
      have hfirst : (c.isAlpha || c == '_') = true := by
        rcases Bool.eq_false_or_eq_true (c.isAlpha || c == '_') with h | h
        · exact h
        · exact absurd (by rw [h]; rfl) h3
      have hall : ((c :: rest).all fun d => d.isAlphanum || d == '_') = true := by
        rcases Bool.eq_false_or_eq_true ((c :: rest).all fun d => d.isAlphanum || d == '_') with h | h
        · exact h
        · exact absurd (by rw [h]; rfl) h4
      rw [List.all_cons] at hall
      refine ⟨⟨⟨?_, ?_⟩, hfirst, ?_⟩, ?_⟩
      · exact decide_eq_true (byteLen_pos c rest)
      · exact decide_eq_true (by omega)
      · exact (Bool.and_eq_true _ _ |>.mp hall).2
      · exact decide_eq_true (by omega)
    · rintro ⟨⟨⟨hlen1, hlen2⟩, hfirst, hrest⟩, hval⟩
      have h2 : ¬ byteLen (c :: rest) > 256 := by
        have := of_decide_eq_true hlen2
        omega
      have h3 : ¬ ((!(c.isAlpha || c == '_')) = true) := by simp [hfirst]
      have hallpos : ((c :: rest).all fun d => d.isAlphanum || d == '_') = true := by
        rw [List.all_cons]
        refine Bool.and_eq_true _ _ |>.mpr ⟨?_, hrest⟩
        rcases Bool.or_eq_true _ _ |>.mp hfirst with ha | hu
        · exact Bool.or_eq_true _ _ |>.mpr (Or.inl (by simp [Char.isAlphanum, ha]))
        · exact Bool.or_eq_true _ _ |>.mpr (Or.inr hu)
      have h4 : ¬ ((!(c :: rest).all fun d => d.isAlphanum || d == '_') = true) := by
        rw [hallpos]; simp
      have h5 : ¬ byteLen v > 32 * 1024 := by
        have := of_decide_eq_true hval
        omega
      rw [if_neg h2, if_neg h3, if_neg h4, if_neg h5]
      rfl

theorem validate_env_vars_isOk (env : List (List Char × List Char)) :
    exceptIsOk (validate_env_vars env) = env.all envPairAcceptedSpec := by
  induction env with
  | nil => rfl
  | cons p rest ih =>
    obtain ⟨k, v⟩ := p
    have he : validate_env_vars ((k, v) :: rest)
        = match validate_env_pair k v with
          | .ok _ => validate_env_vars rest
          | .error e => Except.error e := rfl
    rw [List.all_cons, ← validate_env_pair_isOk k v]
    cases h : validate_env_pair k v with
    | ok u =>
      have hl : validate_env_vars ((k, v) :: rest) = validate_env_vars rest := by
        rw [he, h]
      rw [hl, ih]
      simp [exceptIsOk]
    | error e =>
      have hl : validate_env_vars ((k, v) :: rest) = Except.error e := by
        rw [he, h]
      rw [hl]
      simp [exceptIsOk]


/-- C8: the validators accept exactly what the specification describes —
an image reference iff it is 1..=512 bytes over [A-Za-z0-9._/:@-],
alphanumeric first and last, free of the shell metacharacters and of
".." combined with "/"; an env list iff every key is 1..=256 bytes
matching [A-Za-z_][A-Za-z0-9_]* and every value is at most 32 KiB. -/
theorem validators_accept_iff_spec (image : List Char)
    (env : List (List Char × List Char)) :
    exceptIsOk (validate_image_reference image) = imageRefAcceptedSpec image ∧
    exceptIsOk (validate_env_vars env) = env.all envPairAcceptedSpec :=
  ⟨validate_image_isOk image, validate_env_vars_isOk env⟩
